/-
Verification of the paginated quote-layout engine (app.py) against its
natural-language specification.

The engine is shallowly embedded: real-valued page geometry is modelled over ℚ
(the Python code computes with floats; every claim settled here is an order or
branch property that is robust to that difference, and the constants 42.52,
0.5*cm, 28.35 etc. are exact decimals/rationals), file reading is abstracted to
the pixel dimensions the code extracts from the image files, and the ambient
wall clock consumed by the PDF serializer is passed as an explicit parameter.
-/
import Mathlib

namespace QuoteEngine

/-- One typographic point per ReportLab unit; `cm` in the source is
`72 / 2.54` points. -/
def cmPt : ℚ := 3600 / 127

/-- A4 page width in points (21 cm), as `reportlab.lib.pagesizes.A4`. -/
def pageWidth : ℚ := 21 * cmPt

/-- A4 page height in points (29.7 cm). -/
def pageHeight : ℚ := (297 / 10) * cmPt

/-- `MARGIN_PT = 42.52` (~15 mm). -/
def MARGIN_PT : ℚ := 4252 / 100

/-- `BOTTOM_OFFSET_PT = 0.5 * cm`. -/
def BOTTOM_OFFSET_PT : ℚ := cmPt / 2

/-- `RESERVED_GAP_ABOVE_FOOTER_PT = 10`. -/
def RESERVED_GAP_ABOVE_FOOTER_PT : ℚ := 10

/-- `VEHICLE_TOP_BOTTOM_GAP_PT = 28.35` (~1 cm). -/
def VEHICLE_TOP_BOTTOM_GAP_PT : ℚ := 2835 / 100

/-- `MAX_VEHICLE_RATIO = 0.30` in the source: maximum fraction of the
first-page usable height the vehicle photo may occupy. -/
def MAX_VEHICLE_FRAC : ℚ := 30 / 100

/-- `scaled_height_for_full_width(wpx, hpx, target_wpt)` from app.py:
`if wpx <= 0 or hpx <= 0: return 0` then `hpx * (target_wpt / float(wpx))`. -/
def scaled_height_for_full_width (wpx hpx target_wpt : ℚ) : ℚ :=
  if wpx ≤ 0 ∨ hpx ≤ 0 then 0 else hpx * (target_wpt / wpx)

/-- `calc_footer_height(page_width, footer_path)`: the footer image (given by
its pixel dimensions) scaled to the full page width. -/
def calc_footer_height (wpx hpx : ℚ) : ℚ :=
  scaled_height_for_full_width wpx hpx pageWidth

/-- `usable_width = page_width - 2*MARGIN_PT` from `generate_pdf_bytes`. -/
def usable_width : ℚ := pageWidth - 2 * MARGIN_PT

/-- `calc_header_height(usable_width, header_path)`: the header image scaled to
the usable width. -/
def calc_header_height (wpx hpx : ℚ) : ℚ :=
  scaled_height_for_full_width wpx hpx usable_width

/-- `bottom_reserved = BOTTOM_OFFSET_PT + footer_h + RESERVED_GAP_ABOVE_FOOTER_PT`. -/
def bottom_reserved (footer_h : ℚ) : ℚ :=
  BOTTOM_OFFSET_PT + footer_h + RESERVED_GAP_ABOVE_FOOTER_PT

/-- `first_top = page_height - MARGIN_PT - header_h`. -/
def first_top (header_h : ℚ) : ℚ := pageHeight - MARGIN_PT - header_h

/-- `later_top = page_height - MARGIN_PT`. -/
def later_top : ℚ := pageHeight - MARGIN_PT

/-- `h_first = max(first_top - bottom_reserved, 100)`: first-page usable
content height. -/
def h_first (header_h footer_h : ℚ) : ℚ :=
  max (first_top header_h - bottom_reserved footer_h) 100

/-- `h_later = max(later_top - bottom_reserved, 100)`: continuation-page usable
content height. -/
def h_later (footer_h : ℚ) : ℚ :=
  max (later_top - bottom_reserved footer_h) 100

/-- An input record: `build_story` receives a Python dict from string field
names to string values; embedded as an association list (first binding wins,
as dict keys are unique). -/
def Record := List (String × String)

/-- `data.get(key, default)` on a record. -/
def dictGet (data : Record) (key default : String) : String :=
  (List.lookup key data).getD default

/-- The four named paragraph styles produced by `build_styles`. -/
inductive StyleName where
  | base
  | title
  | price
  | italic
deriving DecidableEq, Repr

/-- The visual attributes of a paragraph style that the claims mention
(`build_styles` fixes many more constants; these suffice to distinguish the
large colored price callout from body text). -/
structure Style where
  fontName : String
  fontSize : ℚ
  leading : ℚ
  centered : Bool
  red : ℚ
  green : ℚ
  blue : ℚ
deriving DecidableEq, Repr

/-- `build_styles()` from app.py: base/title/price/italic with fixed constants;
the price style is 24pt bold in the accent color `LARINI_RED =
Color(193/255, 18/255, 31/255)`. -/
def build_styles : StyleName → Style
  | .base => ⟨"Helvetica", 11, 14, false, 0, 0, 0⟩
  | .title => ⟨"Helvetica-Bold", 11, 14, false, 0, 0, 0⟩
  | .price => ⟨"Helvetica-Bold", 24, 28, true, 193 / 255, 18 / 255, 31 / 255⟩
  | .italic => ⟨"Helvetica-Oblique", 11, 14, true, 0, 0, 0⟩

/-- A platypus `Image` flowable as the code uses it: its draw size, initialized
to the source pixel size and possibly shrunk by `_restrictSize`. -/
structure Img where
  drawWidth : ℚ
  drawHeight : ℚ
deriving DecidableEq, Repr

/-- Modelled from ReportLab `Flowable._restrictSize(aW, aH)` (platypus
flowables): if the draw size exceeds either bound, both dimensions are
multiplied by `min(aW/drawWidth, aH/drawHeight)`; otherwise the image is left
unchanged. (ReportLab's 1e-6 fuzz tolerance on the trigger comparison is not
modelled.) -/
def restrictSize (img : Img) (aW aH : ℚ) : Img :=
  if aW < img.drawWidth ∨ aH < img.drawHeight then
    ⟨img.drawWidth * min (aW / img.drawWidth) (aH / img.drawHeight),
     img.drawHeight * min (aW / img.drawWidth) (aH / img.drawHeight)⟩
  else img

/-- The vehicle-photo argument of `build_story`: the path's existence check
`vehicle_photo_path.exists()` and the pixel dimensions of the file. -/
structure Photo where
  pathExists : Bool
  wpx : ℚ
  hpx : ℚ
deriving DecidableEq, Repr

/-- The flowable kinds `build_story` appends: `Paragraph(text, style)`,
`Spacer(width, height)` and a platypus `Image`. -/
inductive ContentBlock where
  | paragraph (text : String) (style : StyleName)
  | spacer (width height : ℚ)
  | image (img : Img)
deriving DecidableEq, Repr

/-- Whether a block is an image flowable. -/
def isImageBlock : ContentBlock → Bool
  | .image _ => true
  | _ => false

/-- ASCII lower-casing of one character, as Python `str.lower` acts on the
ASCII strings these claims evaluate. -/
def lowerChar (c : Char) : Char :=
  if 'A' ≤ c ∧ c ≤ 'Z' then Char.ofNat (c.toNat + 32) else c

/-- Python `s.lower()` on the character sequence of a string. -/
def strLower (s : String) : String := String.mk (s.data.map lowerChar)

/-- Python `s.startswith(pre)`. -/
def strStartsWith (s pre : String) : Bool := pre.data.isPrefixOf s.data

/-- The ASCII whitespace Python `str.strip` removes from the strings these
claims evaluate. -/
def isSpaceChar (c : Char) : Bool := c == ' ' || c == '\t' || c == '\n' || c == '\r'

/-- Python `s.strip()`: whitespace removed from both ends. -/
def strTrim (s : String) : String :=
  String.mk (((s.data.dropWhile isSpaceChar).reverse.dropWhile isSpaceChar).reverse)

/-- The Python branch condition `price and not str(price).lower().startswith("n.d")`
guarding the colored price callout (a string is truthy iff non-empty). -/
def priceShown (price : String) : Bool :=
  !(price == "") && !(strStartsWith (strLower price) "n.d")

/-- The eight fixed service lines iterated by the `SERVIZI INCLUSI` loop. -/
def includedServices : List String :=
  ["RCA", "Kasko / Danni / Furto & Incendio",
   "Manutenzione ordinaria e straordinaria",
   "Pneumatici (premium o equivalenti)", "Assistenza stradale 24h",
   "Gestione sinistri e contravvenzioni", "Veicolo sostitutivo (se previsto)",
   "Immatricolazione e consegna"]

/-- The four fixed documentation-category paragraphs. -/
def docCategories : List String :=
  ["SOCIETA (SRL, SAS, SPA, SRLS): documento; cod. fiscale; visura aggiornata a 6 mesi; ultimo bilancio depositato con ricevuta",
   "DITTA INDIVIDUALE / SNC / LIBERO PROFESSIONISTA: documento; cod. fiscale; visura aggiornata a 6 mesi; modello unico",
   "PRIVATI: documento; cod. fiscale; CUD anno precedente; ultime 2 buste paga",
   "PENSIONATI: documento; cod. fiscale; cedolini o estratto conto"]

/-- `build_story(data, vehicle_photo_path, styles, first_page_usable_height)`
from app.py, with the same sequential grouping as the source's `story +=`
statements: optional photo block (spacer/image/spacer, the image restricted to
10 cm width and 30% of the first-page usable height), the three labeled text
sections, the price branch, the services loop, and the closing fixed copy. -/
def build_story (data : Record) (vehicle_photo : Option Photo)
    (first_page_usable_height : ℚ) : List ContentBlock :=
  (match vehicle_photo with
   | some p =>
     if p.pathExists then
       [.spacer 1 VEHICLE_TOP_BOTTOM_GAP_PT,
        .image (restrictSize ⟨p.wpx, p.hpx⟩ (10 * cmPt)
          (MAX_VEHICLE_FRAC * first_page_usable_height)),
        .spacer 1 VEHICLE_TOP_BOTTOM_GAP_PT]
     else []
   | none => []) ++
  [.paragraph "DATI CLIENTE" .title,
   .paragraph ("Ragione sociale / Nome: " ++ dictGet data "cliente_nome" "N.D.") .base,
   .paragraph ("P.IVA / CF: " ++ dictGet data "piva_cf" "N.D.") .base,
   .paragraph ("Sede: " ++ dictGet data "sede" "N.D.") .base,
   .paragraph ("Referente: " ++ dictGet data "referente" "N.D.") .base,
   .spacer 1 6,
   .paragraph "VEICOLO PROPOSTO" .title,
   .paragraph ("Marca e Modello: " ++ dictGet data "marca_modello" "N.D.") .base,
   .paragraph ("Versione / Allestimento: " ++ dictGet data "versione" "N.D.") .base,
   .paragraph ("Motore / Alimentazione / Cambio / Potenza: " ++ dictGet data "motore" "N.D.") .base,
   .paragraph ("Idoneo neopatentati: " ++ dictGet data "neopatentati" "N.D.") .base,
   .paragraph ("Consegna stimata: " ++ dictGet data "consegna" "N.D.") .base,
   .spacer 1 6,
   .paragraph "CONDIZIONI ECONOMICHE" .title,
   .paragraph ("Durata: " ++ dictGet data "durata" "N.D." ++ " mesi") .base,
   .paragraph ("Chilometraggio: " ++ dictGet data "km_annui" "N.D." ++ " km/anno") .base,
   .paragraph ("Anticipo: " ++ dictGet data "anticipo" "N.D." ++ " euro") .base] ++
  (let price := dictGet data "canone" "N.D."
   if priceShown price then
     [.spacer 1 4,
      .paragraph (price ++ " euro + IVA al mese") .price,
      .paragraph "Tutto incluso - senza sorprese" .italic]
   else
     [.paragraph "Canone mensile: N.D." .base]) ++
  ([.spacer 1 6, .paragraph "SERVIZI INCLUSI" .title] ++
    includedServices.map (fun s => .paragraph ("- " ++ s) .base)) ++
  ([.spacer 1 6, .paragraph "DOCUMENTAZIONE RICHIESTA" .title] ++
    docCategories.map (fun s => .paragraph s .base) ++
   [.spacer 1 6, .paragraph "TERMINI E CONDIZIONI" .title,
    .paragraph "Offerta soggetta ad approvazione della societa di noleggio; Immagini a scopo illustrativo; Canoni IVA esclusa salvo diversa indicazione; Disponibilita e canone variabili secondo valutazione creditizia" .base,
    .spacer 1 6, .paragraph "CONTATTI" .title,
    .paragraph "Larini Automotive Rent | Tel. 379 2114207 | noleggio@larini.it | www.larinirent.it" .base])

/-- The optional photo block of the document outline (§4.3 of the spec):
present exactly when a photo path is supplied and the file exists. -/
def photoPart (vehicle_photo : Option Photo) (first_page_usable_height : ℚ) :
    List ContentBlock :=
  match vehicle_photo with
  | some p =>
    if p.pathExists then
      [.spacer 1 VEHICLE_TOP_BOTTOM_GAP_PT,
       .image (restrictSize ⟨p.wpx, p.hpx⟩ (10 * cmPt)
         (MAX_VEHICLE_FRAC * first_page_usable_height)),
       .spacer 1 VEHICLE_TOP_BOTTOM_GAP_PT]
    else []
  | none => []

/-- The client-data section of the outline (title, four field lines, spacer). -/
def clientSection (data : Record) : List ContentBlock :=
  [.paragraph "DATI CLIENTE" .title,
   .paragraph ("Ragione sociale / Nome: " ++ dictGet data "cliente_nome" "N.D.") .base,
   .paragraph ("P.IVA / CF: " ++ dictGet data "piva_cf" "N.D.") .base,
   .paragraph ("Sede: " ++ dictGet data "sede" "N.D.") .base,
   .paragraph ("Referente: " ++ dictGet data "referente" "N.D.") .base,
   .spacer 1 6]

/-- The proposed-vehicle section of the outline. -/
def vehicleSection (data : Record) : List ContentBlock :=
  [.paragraph "VEICOLO PROPOSTO" .title,
   .paragraph ("Marca e Modello: " ++ dictGet data "marca_modello" "N.D.") .base,
   .paragraph ("Versione / Allestimento: " ++ dictGet data "versione" "N.D.") .base,
   .paragraph ("Motore / Alimentazione / Cambio / Potenza: " ++ dictGet data "motore" "N.D.") .base,
   .paragraph ("Idoneo neopatentati: " ++ dictGet data "neopatentati" "N.D.") .base,
   .paragraph ("Consegna stimata: " ++ dictGet data "consegna" "N.D.") .base,
   .spacer 1 6]

/-- The economic-terms section of the outline. -/
def econSection (data : Record) : List ContentBlock :=
  [.paragraph "CONDIZIONI ECONOMICHE" .title,
   .paragraph ("Durata: " ++ dictGet data "durata" "N.D." ++ " mesi") .base,
   .paragraph ("Chilometraggio: " ++ dictGet data "km_annui" "N.D." ++ " km/anno") .base,
   .paragraph ("Anticipo: " ++ dictGet data "anticipo" "N.D." ++ " euro") .base]

/-- The conditional price callout of the outline: the colored price line plus
reassurance note when the branch condition holds, the plain sentinel line
otherwise. -/
def pricePart (data : Record) : List ContentBlock :=
  let price := dictGet data "canone" "N.D."
  if priceShown price then
    [.spacer 1 4,
     .paragraph (price ++ " euro + IVA al mese") .price,
     .paragraph "Tutto incluso - senza sorprese" .italic]
  else
    [.paragraph "Canone mensile: N.D." .base]

/-- The included-services section of the outline. -/
def servicesSection : List ContentBlock :=
  [.spacer 1 6, .paragraph "SERVIZI INCLUSI" .title] ++
    includedServices.map (fun s => .paragraph ("- " ++ s) .base)

/-- The required-documentation section of the outline. -/
def docsSection : List ContentBlock :=
  [.spacer 1 6, .paragraph "DOCUMENTAZIONE RICHIESTA" .title] ++
    docCategories.map (fun s => .paragraph s .base)

/-- The terms-and-conditions note of the outline. -/
def termsSection : List ContentBlock :=
  [.spacer 1 6, .paragraph "TERMINI E CONDIZIONI" .title,
   .paragraph "Offerta soggetta ad approvazione della societa di noleggio; Immagini a scopo illustrativo; Canoni IVA esclusa salvo diversa indicazione; Disponibilita e canone variabili secondo valutazione creditizia" .base]

/-- The contact block closing the outline. -/
def contactSection : List ContentBlock :=
  [.spacer 1 6, .paragraph "CONTATTI" .title,
   .paragraph "Larini Automotive Rent | Tel. 379 2114207 | noleggio@larini.it | www.larinirent.it" .base]

/-- The fixed field set substituted into the document. -/
def quoteFields : List String :=
  ["cliente_nome", "piva_cf", "sede", "referente", "marca_modello", "versione",
   "motore", "neopatentati", "consegna", "durata", "km_annui", "anticipo",
   "canone"]

/-- The paragraph of the story that carries a given field's placeholder,
exactly as `build_story` formats it. -/
def fieldParagraph (data : Record) : String → ContentBlock
  | "cliente_nome" =>
    .paragraph ("Ragione sociale / Nome: " ++ dictGet data "cliente_nome" "N.D.") .base
  | "piva_cf" =>
    .paragraph ("P.IVA / CF: " ++ dictGet data "piva_cf" "N.D.") .base
  | "sede" =>
    .paragraph ("Sede: " ++ dictGet data "sede" "N.D.") .base
  | "referente" =>
    .paragraph ("Referente: " ++ dictGet data "referente" "N.D.") .base
  | "marca_modello" =>
    .paragraph ("Marca e Modello: " ++ dictGet data "marca_modello" "N.D.") .base
  | "versione" =>
    .paragraph ("Versione / Allestimento: " ++ dictGet data "versione" "N.D.") .base
  | "motore" =>
    .paragraph ("Motore / Alimentazione / Cambio / Potenza: " ++ dictGet data "motore" "N.D.") .base
  | "neopatentati" =>
    .paragraph ("Idoneo neopatentati: " ++ dictGet data "neopatentati" "N.D.") .base
  | "consegna" =>
    .paragraph ("Consegna stimata: " ++ dictGet data "consegna" "N.D.") .base
  | "durata" =>
    .paragraph ("Durata: " ++ dictGet data "durata" "N.D." ++ " mesi") .base
  | "km_annui" =>
    .paragraph ("Chilometraggio: " ++ dictGet data "km_annui" "N.D." ++ " km/anno") .base
  | "anticipo" =>
    .paragraph ("Anticipo: " ++ dictGet data "anticipo" "N.D." ++ " euro") .base
  | "canone" =>
    if priceShown (dictGet data "canone" "N.D.") then
      .paragraph (dictGet data "canone" "N.D." ++ " euro + IVA al mese") .price
    else .paragraph "Canone mensile: N.D." .base
  | _ => .paragraph "" .base

/-- Whether a block is a paragraph set in the price style (the large colored
price callout). -/
def isPriceStyled : ContentBlock → Bool
  | .paragraph _ .price => true
  | _ => false

/-- Whether the story contains a price-styled paragraph. -/
def priceCalloutEmitted (story : List ContentBlock) : Bool :=
  story.any isPriceStyled

/-- The price-callout condition as the specification states it: the
monthly-fee field is present and its trimmed value's case-insensitive prefix
is not the sentinel "N.D.". -/
def claimPriceCond (data : Record) : Bool :=
  match List.lookup "canone" data with
  | some v => !(strStartsWith (strLower (strTrim v)) (strLower "N.D."))
  | none => false

/-- One registered `PageTemplate`: its id and what its `onPage` callback
draws. `on_first_page` draws the header and the footer; `on_later_pages`
draws only the footer. -/
structure PageTemplateSpec where
  id : String
  drawsHeader : Bool
  drawsFooter : Bool
deriving DecidableEq, Repr

/-- The template list registered by `doc.addPageTemplates` in
`generate_pdf_bytes`: "First" (header and footer) then "Later" (footer only). -/
def pageTemplates : List PageTemplateSpec :=
  [⟨"First", true, true⟩, ⟨"Later", false, true⟩]

/-- Modelled from ReportLab platypus: of the flowable kinds `build_story`
creates (Paragraph, Spacer, Image), none is a `NextPageTemplate` action
flowable, so none requests a page-template switch. -/
def blockTemplateRequest : ContentBlock → Option Nat
  | _ => none

/-- Modelled from ReportLab `BaseDocTemplate.handle_pageEnd`: at the end of a
page, `_nextPageTemplateIndex` holds the index requested by the last
`NextPageTemplate` action processed on that page, if any (the code sets no
`autoNextPageTemplate` on either template). -/
def pageEndRequest (pageBlocks : List ContentBlock) : Option Nat :=
  (pageBlocks.filterMap blockTemplateRequest).getLast?

/-- Modelled from ReportLab `BaseDocTemplate`: `build` starts from template
index 0 (`handle_documentBegin` sets `pageTemplate = pageTemplates[0]`) and
`handle_pageEnd` keeps the current template unless a switch was requested on
the page just ended. Given the story blocks laid out on each successive page,
this returns the template index used for each page. -/
def templateIndexTrace (pages : List (List ContentBlock)) (start : Nat) :
    List Nat :=
  match pages with
  | [] => []
  | pb :: rest => start :: templateIndexTrace rest ((pageEndRequest pb).getD start)

/-- The template a given index denotes (out-of-range indices never arise). -/
def templateAt (i : Nat) : PageTemplateSpec :=
  pageTemplates.getD i ⟨"", false, false⟩

/-- How many pages of a rendered trace have the header painted by their
template's `onPage` callback. -/
def headerDraws (trace : List Nat) : Nat :=
  trace.countP fun i => (templateAt i).drawsHeader

/-- How many pages of a rendered trace have the footer painted. -/
def footerDraws (trace : List Nat) : Nat :=
  trace.countP fun i => (templateAt i).drawsFooter

/-- Everything `generate_pdf_bytes` itself determines about the document:
the computed geometry, the registered templates and the assembled story. -/
structure RenderLayout where
  headerH : ℚ
  footerH : ℚ
  bottomReserved : ℚ
  usableFirst : ℚ
  usableLater : ℚ
  templates : List PageTemplateSpec
  story : List ContentBlock
deriving DecidableEq

/-- The serialized PDF file. Modelled from ReportLab `pdfdoc.PDFDocument`
with `rl_config.invariant = 0` (the default; `generate_pdf_bytes` never
enables invariant mode): the emitted bytes embed the wall clock — the Info
dictionary's CreationDate/ModDate come from `time.localtime()` and the file
identifier is a digest of `time.time()` — alongside the layout content. -/
structure PDFOutput where
  creationStamp : Nat
  layout : RenderLayout
deriving DecidableEq

/-- `generate_pdf_bytes(data, vehicle_photo, header_path, footer_path)` from
app.py, with the header/footer files abstracted to their pixel dimensions and
the serializer's clock reading passed explicitly as `now`. -/
def generate_pdf_bytes (data : Record) (vehicle_photo : Option Photo)
    (hdrWpx hdrHpx ftrWpx ftrHpx : ℚ) (now : Nat) : PDFOutput :=
  let footer_h := calc_footer_height ftrWpx ftrHpx
  let bottomR := bottom_reserved footer_h
  let header_h := calc_header_height hdrWpx hdrHpx
  let hf := h_first header_h footer_h
  let hl := h_later footer_h
  ⟨now, ⟨header_h, footer_h, bottomR, hf, hl, pageTemplates,
    build_story data vehicle_photo hf⟩⟩

/-- A concrete record used for closed instances: the spec's scenario record
`{marca_modello: "Model X", canone: "450"}`. -/
def demoRecord : Record := [("marca_modello", "Model X"), ("canone", "450")]

/-- A scaled image height is never negative when the target width is not. -/
theorem scaled_height_nonneg (wpx hpx target : ℚ) (ht : 0 ≤ target) :
    0 ≤ scaled_height_for_full_width wpx hpx target := by
  unfold scaled_height_for_full_width
  split
  · exact le_rfl
  · rename_i h
    push_neg at h
    exact mul_nonneg h.2.le (div_nonneg ht h.1.le)

/-- The usable width is positive. -/
theorem usable_width_pos : 0 < usable_width := by
  norm_num [usable_width, pageWidth, cmPt, MARGIN_PT]

/-- A computed header height is never negative. -/
theorem calc_header_height_nonneg (wpx hpx : ℚ) :
    0 ≤ calc_header_height wpx hpx :=
  scaled_height_nonneg wpx hpx usable_width usable_width_pos.le

/-- C5: for every source pixel width `wpx`, pixel height `hpx` and target
width, the scaled height equals `hpx * (target / wpx)` when both source
dimensions are positive, and equals 0 (totally, with no division-by-zero
failure) whenever `wpx ≤ 0` or `hpx ≤ 0`. -/
theorem scaled_height_formula (wpx hpx target : ℚ) :
    (0 < wpx → 0 < hpx →
      scaled_height_for_full_width wpx hpx target = hpx * (target / wpx))
    ∧ ((wpx ≤ 0 ∨ hpx ≤ 0) → scaled_height_for_full_width wpx hpx target = 0) := by
  constructor
  · intro hw hh
    unfold scaled_height_for_full_width
    rw [if_neg]
    push_neg
    exact ⟨hw, hh⟩
  · intro h
    unfold scaled_height_for_full_width
    rw [if_pos h]

/-- Witness for C5 at concrete inputs: a 2x3-pixel source scaled to width 10
has height 15, and a zero-width source yields height 0. -/
theorem scaled_height_formula_inst :
    scaled_height_for_full_width 2 3 10 = 3 * (10 / 2)
    ∧ scaled_height_for_full_width 0 3 10 = 0 :=
  ⟨(scaled_height_formula 2 3 10).1 (by norm_num) (by norm_num),
   (scaled_height_formula 0 3 10).2 (Or.inl le_rfl)⟩

/-- C6: for every header and footer height, both usable content heights are at
least 100 points, and whenever the unclamped value would drop to 100 or below
the height clamps to exactly 100. -/
theorem usable_heights_floor (headerH footerH : ℚ) :
    100 ≤ h_first headerH footerH ∧ 100 ≤ h_later footerH
    ∧ (first_top headerH - bottom_reserved footerH ≤ 100 →
        h_first headerH footerH = 100)
    ∧ (later_top - bottom_reserved footerH ≤ 100 → h_later footerH = 100) := by
  refine ⟨le_max_right _ _, le_max_right _ _, fun h => ?_, fun h => ?_⟩
  · unfold h_first
    exact max_eq_right h
  · unfold h_later
    exact max_eq_right h

/-- Witness for C6 at a concrete oversized header: a 700-point header with a
zero-height footer exhausts the page and the first-page height clamps to
exactly 100, never below. -/
theorem usable_heights_floor_inst :
    h_first 700 0 = 100 ∧ 100 ≤ h_later 0 :=
  ⟨(usable_heights_floor 700 0).2.2.1 (by
      norm_num [first_top, bottom_reserved, pageHeight, MARGIN_PT,
        BOTTOM_OFFSET_PT, RESERVED_GAP_ABOVE_FOOTER_PT, cmPt]),
   (usable_heights_floor 700 0).2.1⟩

/-- C10: for all non-negative header and footer heights the first-page usable
height never exceeds the continuation usable height, and the two can be equal
even with a positive header, namely when both clamp to the 100-point floor. -/
theorem usable_height_mono :
    (∀ headerH footerH : ℚ, 0 ≤ headerH → 0 ≤ footerH →
      h_first headerH footerH ≤ h_later footerH)
    ∧ (∃ headerH footerH : ℚ, 0 < headerH ∧ 0 ≤ footerH ∧
      h_first headerH footerH = h_later footerH) := by
  constructor
  · intro headerH footerH h0 _
    unfold h_first h_later
    refine max_le_max ?_ le_rfl
    unfold first_top later_top
    linarith
  · refine ⟨1000, 1000, by norm_num, by norm_num, ?_⟩
    norm_num [h_first, h_later, first_top, later_top, bottom_reserved,
      pageHeight, MARGIN_PT, BOTTOM_OFFSET_PT, RESERVED_GAP_ABOVE_FOOTER_PT,
      cmPt, max_def]

/-- Witness for C10 at a concrete input: with a 5-point header and zero-height
footer the first-page usable height does not exceed the continuation one. -/
theorem usable_height_mono_inst : h_first 5 0 ≤ h_later 0 :=
  usable_height_mono.1 5 0 (by norm_num) le_rfl

/-- Counterexample to C3 as stated: a valid 100x10 header image yields a
positive header height, yet with a valid 10x100 footer image (which reserves
more than the whole page) both usable heights clamp to the floor and are
equal, not strictly ordered. -/
theorem usable_height_strict_fails :
    0 < calc_header_height 100 10
    ∧ h_first (calc_header_height 100 10) (calc_footer_height 10 100)
        = h_later (calc_footer_height 10 100) := by
  constructor
  · norm_num [calc_header_height, scaled_height_for_full_width, usable_width,
      pageWidth, cmPt, MARGIN_PT]
  · norm_num [calc_header_height, calc_footer_height,
      scaled_height_for_full_width, usable_width, pageWidth, cmPt, MARGIN_PT,
      h_first, h_later, first_top, later_top, bottom_reserved, pageHeight,
      BOTTOM_OFFSET_PT, RESERVED_GAP_ABOVE_FOOTER_PT, max_def]

/-- C3 (amended): for all header and footer images, the first-page usable
height equals the continuation one when the computed header height is zero; it
is strictly smaller whenever the header height is positive and the
continuation height sits above the 100-point floor; and it never exceeds the
continuation height. -/
theorem usable_height_ordering (hw hh fw fh : ℚ) :
    (calc_header_height hw hh = 0 →
      h_first (calc_header_height hw hh) (calc_footer_height fw fh)
        = h_later (calc_footer_height fw fh))
    ∧ (0 < calc_header_height hw hh →
      100 < later_top - bottom_reserved (calc_footer_height fw fh) →
      h_first (calc_header_height hw hh) (calc_footer_height fw fh)
        < h_later (calc_footer_height fw fh))
    ∧ h_first (calc_header_height hw hh) (calc_footer_height fw fh)
        ≤ h_later (calc_footer_height fw fh) := by
  refine ⟨fun h0 => ?_, fun hpos hfloor => ?_, ?_⟩
  · unfold h_first h_later first_top later_top
    rw [h0]
    norm_num
  · unfold h_first h_later first_top later_top
    unfold h_later later_top at hfloor
    rw [max_eq_left (le_of_lt hfloor)]
    exact max_lt (by linarith) hfloor
  · unfold h_first h_later
    refine max_le_max ?_ le_rfl
    have := calc_header_height_nonneg hw hh
    unfold first_top later_top
    linarith

/-- Witness for C3 (amended) at concrete images: a 100x10 header with a 100x10
footer gives a positive header height, an unclamped continuation frame, and a
strictly smaller first-page usable height. -/
theorem usable_height_ordering_inst :
    h_first (calc_header_height 100 10) (calc_footer_height 100 10)
      < h_later (calc_footer_height 100 10) :=
  (usable_height_ordering 100 10 100 10).2.1
    (by norm_num [calc_header_height, scaled_height_for_full_width,
      usable_width, pageWidth, cmPt, MARGIN_PT])
    (by norm_num [calc_footer_height, scaled_height_for_full_width, later_top,
      bottom_reserved, pageHeight, pageWidth, cmPt, MARGIN_PT,
      BOTTOM_OFFSET_PT, RESERVED_GAP_ABOVE_FOOTER_PT])

/-- The story `build_story` assembles is the concatenation of the outline's
nine sections. -/
theorem story_eq_sections (data : Record) (photo : Option Photo) (h : ℚ) :
    build_story data photo h
      = photoPart photo h ++ clientSection data ++ vehicleSection data
          ++ econSection data ++ pricePart data ++ servicesSection
          ++ docsSection ++ termsSection ++ contactSection := by
  cases photo with
  | none =>
    cases hp : priceShown (dictGet data "canone" "N.D.") <;>
      simp [build_story, photoPart, clientSection, vehicleSection, econSection,
        pricePart, servicesSection, docsSection, termsSection, contactSection,
        includedServices, docCategories, hp]
  | some p =>
    cases hpe : p.pathExists <;>
      cases hp : priceShown (dictGet data "canone" "N.D.") <;>
        simp [build_story, photoPart, clientSection, vehicleSection,
          econSection, pricePart, servicesSection, docsSection, termsSection,
          contactSection, includedServices, docCategories, hp, hpe]

/-- C9: for every record and photo input the assembled content sequence is
exactly the fixed outline, in order: optional photo block, client data,
proposed vehicle, economic terms, conditional price callout, eight included
services, four documentation categories, terms note, contact block; every
section other than the price branch has a fixed block count for every input,
and the photo block appears exactly when a photo is supplied and exists. -/
theorem story_follows_outline (data : Record) (photo : Option Photo) (h : ℚ) :
    build_story data photo h
      = photoPart photo h ++ clientSection data ++ vehicleSection data
          ++ econSection data ++ pricePart data ++ servicesSection
          ++ docsSection ++ termsSection ++ contactSection
    ∧ includedServices.length = 8
    ∧ docCategories.length = 4
    ∧ (clientSection data).length = 6
    ∧ (vehicleSection data).length = 7
    ∧ (econSection data).length = 4
    ∧ servicesSection.length = 10
    ∧ docsSection.length = 6
    ∧ termsSection.length = 3
    ∧ contactSection.length = 3
    ∧ photoPart none h = []
    ∧ (∀ p : Photo, (photoPart (some p) h).length = cond p.pathExists 3 0) := by
  refine ⟨story_eq_sections data photo h, rfl, rfl, rfl, rfl, rfl, rfl, rfl,
    rfl, rfl, rfl, fun p => ?_⟩
  cases hpe : p.pathExists <;> simp [photoPart, hpe]

/-- `_restrictSize` bounds both draw dimensions by the given maxima whenever
the source dimensions are positive. -/
theorem restrictSize_bounds (img : Img) (aW aH : ℚ) (hw : 0 < img.drawWidth)
    (hh : 0 < img.drawHeight) :
    (restrictSize img aW aH).drawWidth ≤ aW
    ∧ (restrictSize img aW aH).drawHeight ≤ aH := by
  unfold restrictSize
  split
  · constructor
    · show img.drawWidth * min (aW / img.drawWidth) (aH / img.drawHeight) ≤ aW
      calc img.drawWidth * min (aW / img.drawWidth) (aH / img.drawHeight)
          ≤ img.drawWidth * (aW / img.drawWidth) :=
            mul_le_mul_of_nonneg_left (min_le_left _ _) hw.le
        _ = aW := by field_simp
    · show img.drawHeight * min (aW / img.drawWidth) (aH / img.drawHeight) ≤ aH
      calc img.drawHeight * min (aW / img.drawWidth) (aH / img.drawHeight)
          ≤ img.drawHeight * (aH / img.drawHeight) :=
            mul_le_mul_of_nonneg_left (min_le_right _ _) hh.le
        _ = aH := by field_simp
  · rename_i hcond
    push_neg at hcond
    exact ⟨hcond.1, hcond.2⟩

/-- The part of the story after the photo block contains no image flowable. -/
theorem story_no_photo_no_image (data : Record) (h : ℚ) :
    (build_story data none h).all (fun b => !isImageBlock b) = true := by
  rw [story_eq_sections data none h]
  cases hp : priceShown (dictGet data "canone" "N.D.") <;>
    simp [photoPart, clientSection, vehicleSection, econSection, pricePart,
      servicesSection, docsSection, termsSection, contactSection,
      includedServices, docCategories, isImageBlock, hp]

/-- C7: when a photo path is supplied and the file exists, the story starts
with exactly one image block padded by the fixed spacers, its rendered height
at most 30% of the first-page usable height and its width at most 10 cm, for
any source aspect ratio, and no other image block appears; when the path is
absent or the file does not exist, the story contains no image block at all
(and is still produced, with no failure). -/
theorem photo_block_bounded (data : Record) (p : Photo) (h : ℚ) :
    (p.pathExists = true → 0 < p.wpx → 0 < p.hpx →
      ∃ (i : Img) (rest : List ContentBlock),
        build_story data (some p) h
          = .spacer 1 VEHICLE_TOP_BOTTOM_GAP_PT :: .image i ::
              .spacer 1 VEHICLE_TOP_BOTTOM_GAP_PT :: rest
        ∧ i.drawHeight ≤ MAX_VEHICLE_FRAC * h
        ∧ i.drawWidth ≤ 10 * cmPt
        ∧ rest.all (fun b => !isImageBlock b) = true)
    ∧ (build_story data none h).all (fun b => !isImageBlock b) = true
    ∧ (p.pathExists = false →
        (build_story data (some p) h).all (fun b => !isImageBlock b) = true) := by
  refine ⟨fun hpe hwpx hhpx => ?_, story_no_photo_no_image data h, fun hpe => ?_⟩
  · refine ⟨restrictSize ⟨p.wpx, p.hpx⟩ (10 * cmPt) (MAX_VEHICLE_FRAC * h),
      build_story data none h, ?_, ?_, ?_, story_no_photo_no_image data h⟩
    · show build_story data (some p) h = _
      rw [story_eq_sections data (some p) h, story_eq_sections data none h]
      simp [photoPart, hpe]
    · exact (restrictSize_bounds ⟨p.wpx, p.hpx⟩ (10 * cmPt)
        (MAX_VEHICLE_FRAC * h) hwpx hhpx).2
    · exact (restrictSize_bounds ⟨p.wpx, p.hpx⟩ (10 * cmPt)
        (MAX_VEHICLE_FRAC * h) hwpx hhpx).1
  · have hbase := story_no_photo_no_image data h
    rw [story_eq_sections data none h] at hbase
    rw [story_eq_sections data (some p) h]
    simp only [photoPart, hpe] at hbase ⊢
    simpa using hbase

/-- Witness for C7 at a concrete photo: a 4000x3000 source on a 500-point
first page is emitted once, between the fixed spacers, within both bounds. -/
theorem photo_block_bounded_inst :
    ∃ (i : Img) (rest : List ContentBlock),
      build_story demoRecord (some ⟨true, 4000, 3000⟩) 500
        = .spacer 1 VEHICLE_TOP_BOTTOM_GAP_PT :: .image i ::
            .spacer 1 VEHICLE_TOP_BOTTOM_GAP_PT :: rest
      ∧ i.drawHeight ≤ MAX_VEHICLE_FRAC * 500
      ∧ i.drawWidth ≤ 10 * cmPt
      ∧ rest.all (fun b => !isImageBlock b) = true :=
  (photo_block_bounded demoRecord ⟨true, 4000, 3000⟩ 500).1 rfl
    (by norm_num) (by norm_num)

/-- The photo block never contains a price-styled paragraph. -/
theorem photoPart_any_price (photo : Option Photo) (h : ℚ) :
    (photoPart photo h).any isPriceStyled = false := by
  cases photo with
  | none => rfl
  | some p => cases hpe : p.pathExists <;> simp [photoPart, hpe, isPriceStyled]

/-- The price branch condition evaluates to false on the sentinel itself. -/
theorem priceShown_nd : priceShown "N.D." = false := by decide

/-- Counterexample to C2 as stated: for the record whose canone value is "N.D"
(no trailing dot), the claim's condition — present, and the trimmed value's
case-insensitive prefix is not the sentinel "N.D." — holds, yet build_story
emits no price-styled paragraph (the code tests the prefix "n.d", not
"N.D."). -/
theorem price_callout_claim_fails :
    claimPriceCond [("canone", "N.D")] = true
    ∧ priceCalloutEmitted (build_story [("canone", "N.D")] none 500) = false := by
  constructor
  · decide
  · decide

/-- C2 (amended): build_story emits a price-styled paragraph iff the canone
value (defaulting to the sentinel when the field is absent) is non-empty and
its untrimmed lowercase form does not start with "n.d"; when it does, the
spacer, colored price line and fixed reassurance note appear contiguously in
order; otherwise the plain sentinel line is emitted. -/
theorem price_callout_iff (data : Record) (photo : Option Photo) (h : ℚ) :
    priceCalloutEmitted (build_story data photo h)
      = priceShown (dictGet data "canone" "N.D.")
    ∧ (priceShown (dictGet data "canone" "N.D.") = true →
        List.IsInfix
          [ContentBlock.spacer 1 4,
           ContentBlock.paragraph
             (dictGet data "canone" "N.D." ++ " euro + IVA al mese") .price,
           ContentBlock.paragraph "Tutto incluso - senza sorprese" .italic]
          (build_story data photo h))
    ∧ (priceShown (dictGet data "canone" "N.D.") = false →
        ContentBlock.paragraph "Canone mensile: N.D." .base
          ∈ build_story data photo h) := by
  refine ⟨?_, fun hp => ?_, fun hp => ?_⟩
  · rw [story_eq_sections data photo h]
    cases hp : priceShown (dictGet data "canone" "N.D.") <;>
      simp [priceCalloutEmitted, List.any_append, photoPart_any_price,
        clientSection, vehicleSection, econSection, pricePart, servicesSection,
        docsSection, termsSection, contactSection, includedServices,
        docCategories, isPriceStyled, hp]
  · rw [story_eq_sections data photo h]
    refine ⟨photoPart photo h ++ clientSection data ++ vehicleSection data
      ++ econSection data,
      servicesSection ++ docsSection ++ termsSection ++ contactSection, ?_⟩
    simp [pricePart, hp, List.append_assoc]
  · rw [story_eq_sections data photo h]
    simp [pricePart, hp]

/-- Witness for C2 (amended) at the record `{canone: "450"}`: the callout
equality holds and the spacer, price line and reassurance note appear in
order. -/
theorem price_callout_iff_inst :
    priceCalloutEmitted (build_story [("canone", "450")] none 500)
      = priceShown (dictGet [("canone", "450")] "canone" "N.D.")
    ∧ List.IsInfix
        [ContentBlock.spacer 1 4,
         ContentBlock.paragraph
           (dictGet [("canone", "450")] "canone" "N.D." ++ " euro + IVA al mese")
           .price,
         ContentBlock.paragraph "Tutto incluso - senza sorprese" .italic]
        (build_story [("canone", "450")] none 500) :=
  ⟨(price_callout_iff [("canone", "450")] none 500).1,
   (price_callout_iff [("canone", "450")] none 500).2.1 (by decide)⟩

/-- C8: for every (possibly partial) record and every field of the fixed
field set, the lookup is total — it yields the sentinel "N.D." when the field
is absent — and the paragraph carrying that field's placeholder is in the
assembled story. -/
theorem missing_field_is_nd (data : Record) (field : String)
    (photo : Option Photo) (h : ℚ) (hf : field ∈ quoteFields)
    (hnone : List.lookup field data = none) :
    dictGet data field "N.D." = "N.D."
    ∧ fieldParagraph data field ∈ build_story data photo h := by
  have hval : dictGet data field "N.D." = "N.D." := by
    unfold dictGet
    rw [hnone]
    rfl
  refine ⟨hval, ?_⟩
  rw [story_eq_sections data photo h]
  fin_cases hf <;>
    simp [fieldParagraph, clientSection, vehicleSection, econSection,
      pricePart, servicesSection, docsSection, termsSection, contactSection,
      hval, priceShown_nd]

/-- Witness for C8 at the empty record and the client-name field: the
substituted value is exactly the sentinel and its line is in the story. -/
theorem missing_field_is_nd_inst :
    dictGet [] "cliente_nome" "N.D." = "N.D."
    ∧ fieldParagraph [] "cliente_nome" ∈ build_story [] none 500 :=
  missing_field_is_nd [] "cliente_nome" none 500 (by decide) rfl

/-- No page of any story ever requests a template switch: `build_story`
produces only Paragraph, Spacer and Image flowables, never a
`NextPageTemplate` action. -/
theorem pageEndRequest_none (l : List ContentBlock) : pageEndRequest l = none := by
  unfold pageEndRequest
  rw [show l.filterMap blockTemplateRequest = [] by
    simp [List.filterMap_eq_nil_iff, blockTemplateRequest]]
  rfl

/-- Because no switch is ever requested, the document keeps its starting
template index on every page. -/
theorem templateIndexTrace_const (pages : List (List ContentBlock)) (i : Nat) :
    templateIndexTrace pages i = List.replicate pages.length i := by
  induction pages generalizing i with
  | nil => rfl
  | cons pb rest ih =>
    simp [templateIndexTrace, pageEndRequest_none, List.replicate_succ, ih]

/-- C1 exhibit (code bug): however the assembled story is split across pages,
the registered "First" template (index 0, which draws the header) is used for
every page — the "Later" template is never reached, because the story contains
no template-switch action and no `autoNextPageTemplate` is set. Concretely,
splitting the demo story across two pages draws the header twice, not once,
while the footer is drawn on both pages. -/
theorem first_template_reused_every_page :
    (∀ pages : List (List ContentBlock),
      templateIndexTrace pages 0 = List.replicate pages.length 0)
    ∧ (build_story demoRecord none 500).take 12
        ++ (build_story demoRecord none 500).drop 12
        = build_story demoRecord none 500
    ∧ templateIndexTrace
        [(build_story demoRecord none 500).take 12,
         (build_story demoRecord none 500).drop 12] 0 = [0, 0]
    ∧ templateAt 0 = ⟨"First", true, true⟩
    ∧ headerDraws [0, 0] = 2
    ∧ footerDraws [0, 0] = 2 := by
  refine ⟨fun pages => templateIndexTrace_const pages 0,
    List.take_append_drop 12 _, ?_, rfl, rfl, rfl⟩
  rw [templateIndexTrace_const]
  rfl

/-- Counterexample to C4 as stated: rendering the very same record and assets
at two different serializer clock readings yields different output, because
the non-invariant ReportLab serializer embeds the creation time in the file. -/
theorem pdf_bytes_differ_across_clock :
    generate_pdf_bytes demoRecord none 100 10 100 10 0
      ≠ generate_pdf_bytes demoRecord none 100 10 100 10 1 := by
  intro hEq
  have h2 := congrArg PDFOutput.creationStamp hEq
  simp [generate_pdf_bytes] at h2

/-- C4 (amended): the whole layout — geometry, templates and story — is a
deterministic function of the record and asset inputs alone, and two renders
of the same inputs produce identical output exactly when the serializer's
embedded clock readings coincide. -/
theorem pdf_deterministic_modulo_clock (data : Record) (photo : Option Photo)
    (hw hh fw fh : ℚ) (t t' : Nat) :
    (generate_pdf_bytes data photo hw hh fw fh t).layout
      = (generate_pdf_bytes data photo hw hh fw fh t').layout
    ∧ (generate_pdf_bytes data photo hw hh fw fh t
        = generate_pdf_bytes data photo hw hh fw fh t' ↔ t = t') := by
  refine ⟨rfl, fun hEq => ?_, fun hEq => by rw [hEq]⟩
  exact congrArg PDFOutput.creationStamp hEq

end QuoteEngine
